import Mathlib

/-!
Verification of the NSQLite database core against its source.

Strings from the Go source are modelled as `List Char` (`GoStr`) so that
every operation is structurally recursive and kernel-computable.  Machine
integers are modelled as `Int` with explicit wrap-around where the source
performs a narrowing conversion.  IEEE-754 payloads are carried as `ℚ`;
no theorem below computes with them, they are only moved around by the
dispatch code being verified.  Fallible Go code is modelled with
`Except GoStr`.
-/

set_option autoImplicit false

abbrev GoStr := List Char

/-- Shorthand turning a Lean string literal into the `GoStr` model. -/
def gs (s : String) : GoStr := s.data

/-- ASCII model of `unicode.IsSpace` as used by `strings.TrimSpace`. -/
def isSpaceChar (c : Char) : Bool :=
  c = ' ' || c = '\t' || c = '\n' || c = '\r'

/-- Drops leading whitespace characters. -/
def dropLeading : GoStr → GoStr
  | [] => []
  | c :: rest => if isSpaceChar c then dropLeading rest else c :: rest

/-- Model of Go `strings.TrimSpace` (ASCII whitespace). -/
def goTrimSpace (s : GoStr) : GoStr :=
  dropLeading ((dropLeading s.reverse).reverse)

/-- Model of Go `strings.ToLower` (ASCII case folding). -/
def goToLower (s : GoStr) : GoStr := s.map Char.toLower

/-- Model of Go `strings.HasPrefix s p`. -/
def goHasPrefixStr : GoStr → GoStr → Bool
  | _, [] => true
  | [], _ :: _ => false
  | sc :: sr, pc :: pr => pc = sc && goHasPrefixStr sr pr

/-- Model of Go `strings.TrimPrefix s p`. -/
def goTrimPrefixStr (s p : GoStr) : GoStr :=
  if goHasPrefixStr s p then s.drop p.length else s

/-- Two's-complement narrowing of a 64-bit integer to 32 bits, as the C cast
performed by `sqlite3_column_int` and by Go `int32(v)` conversions. -/
def toInt32 (v : Int) : Int :=
  (v + 2147483648) % 4294967296 - 2147483648

/-- Two's-complement reinterpretation of an unsigned 64-bit value as `int64`,
as Go `int64(v)` on a `uint64`/`uint` operand. -/
def toInt64 (v : Int) : Int :=
  (v + 9223372036854775808) % 18446744073709551616 - 9223372036854775808

namespace Sqlitec

/-!
Embedding of `internal/nsqlited/sqlitec/sqlite3.go`: dynamic bind-parameter
dispatch (`BindDynamic`), named-parameter resolution
(`BindParameterIndexSafe`), the bind loop of `Conn.Query`, and dynamic
column extraction (`ColumnDynamic`, `ColumnInt`, `ColumnInt64`).
-/

/-- A Go dynamic value (`any`) arriving as a bind parameter.  Unsupported
dynamic kinds are collapsed into `goOther` carrying the rendering of the Go
type name (the `%T` verb of the source's error message). -/
inductive GoValue where
  | goBool (b : Bool)
  | goInt8 (v : Int)
  | goUint8 (v : Int)
  | goInt16 (v : Int)
  | goUint16 (v : Int)
  | goInt32 (v : Int)
  | goUint32 (v : Int)
  | goInt (v : Int)
  | goUint (v : Int)
  | goInt64 (v : Int)
  | goUint64 (v : Int)
  | goFloat64 (v : ℚ)
  | goFloat32 (v : ℚ)
  | goString (s : GoStr)
  | goBytes (bs : List Nat)
  | goNil
  | goOther (typeName : GoStr)
  deriving Repr, DecidableEq

/-- The native bind call issued for one parameter: which `sqlite3_bind_*`
entry point runs and with what payload. -/
inductive BindOp where
  | bindInt (v : Int)
  | bindInt64 (v : Int)
  | bindDouble (v : ℚ)
  | bindText (s : GoStr)
  | bindBlob (bs : List Nat)
  | bindNull
  deriving Repr, DecidableEq

/-- `Stmt.BindBlob`: an empty byte slice is bound as NULL. -/
def bindBlobFn (bs : List Nat) : BindOp :=
  if bs.length = 0 then .bindNull else .bindBlob bs

/-- `Stmt.BindDynamic`: dispatch a Go dynamic value to a native bind call.
The integer conversions mirror the source: the sub-32-bit kinds and
`uint32` go through Go `int32(v)` (`toInt32`), the 64-bit kinds through
`int64(v)` (`toInt64` for the unsigned ones). -/
def bindDynamic : GoValue → Except GoStr BindOp
  | .goBool b => .ok (.bindInt (if b then 1 else 0))
  | .goInt8 v => .ok (.bindInt (toInt32 v))
  | .goUint8 v => .ok (.bindInt (toInt32 v))
  | .goInt16 v => .ok (.bindInt (toInt32 v))
  | .goUint16 v => .ok (.bindInt (toInt32 v))
  | .goInt32 v => .ok (.bindInt v)
  | .goUint32 v => .ok (.bindInt (toInt32 v))
  | .goInt v => .ok (.bindInt64 v)
  | .goUint v => .ok (.bindInt64 (toInt64 v))
  | .goInt64 v => .ok (.bindInt64 v)
  | .goUint64 v => .ok (.bindInt64 (toInt64 v))
  | .goFloat64 v => .ok (.bindDouble v)
  | .goFloat32 v => .ok (.bindDouble v)
  | .goString s => .ok (.bindText s)
  | .goBytes bs => .ok (bindBlobFn bs)
  | .goNil => .ok .bindNull
  | .goOther typeName =>
      .error (gs "unsupported bind " ++ typeName ++ gs " type")

/-- The four name prefixes probed by `BindParameterIndexSafe`, in source
order. -/
def paramPrefixes : List GoStr := [[':'], ['@'], ['$'], ['?']]

/-- The second loop of `BindParameterIndexSafe`: probe `p ++ name` for each
prefix `p` in order, returning the first non-zero index. -/
def probeLoop (lookup : GoStr → Nat) (name : GoStr) : List GoStr → Nat
  | [] => 0
  | p :: rest =>
      let index := lookup (p ++ name)
      if index ≠ 0 then index else probeLoop lookup name rest

/-- `Stmt.BindParameterIndexSafe`.  `lookup` models the engine's
`sqlite3_bind_parameter_index` for the prepared statement at hand. -/
def bindParameterIndexSafe (lookup : GoStr → Nat) (name : GoStr) : Nat :=
  if name = [] then 0
  else if paramPrefixes.any (fun p => goHasPrefixStr name p) then lookup name
  else probeLoop lookup name paramPrefixes

/-- One `{name, value}` parameter of a query (`sqlitec.QueryParam`). -/
structure QueryParam where
  name : GoStr
  value : GoValue
  deriving Repr, DecidableEq

/-- The parameter-binding loop of `Conn.Query`: a nameless parameter binds at
positional index `i+1`; a named one resolves through
`bindParameterIndexSafe`, failing when the resolved index is zero.  Returns
the list of native bind calls with their indices. -/
def bindParams (lookup : GoStr → Nat) :
    List QueryParam → Nat → Except GoStr (List (Nat × BindOp))
  | [], _ => .ok []
  | param :: rest, i =>
      if param.name = [] then
        match bindDynamic param.value with
        | .error e => .error (gs "failed to bind nameless parameter: " ++ e)
        | .ok op =>
            match bindParams lookup rest (i + 1) with
            | .error e => .error e
            | .ok l => .ok ((i + 1, op) :: l)
      else
        let index := bindParameterIndexSafe lookup param.name
        if index = 0 then
          .error (gs "failed to find named parameter index: " ++ param.name)
        else
          match bindDynamic param.value with
          | .error e => .error (gs "failed to bind named parameter: " ++ e)
          | .ok op =>
              match bindParams lookup rest (i + 1) with
              | .error e => .error e
              | .ok l => .ok ((index, op) :: l)

/-- A value as stored in an SQLite cell; the constructor is what
`sqlite3_column_type` reports for the cell. -/
inductive StoredCell where
  | intCell (v : Int)
  | realCell (v : ℚ)
  | textCell (s : GoStr)
  | blobCell (bs : List Nat)
  | nullCell
  deriving Repr, DecidableEq

/-- A Go dynamic value (`any`) produced by row extraction. -/
inductive GoCell where
  | goIntC (v : Int)
  | goFloatC (v : ℚ)
  | goStrC (s : GoStr)
  | goBytesC (bs : List Nat)
  | goNilC
  deriving Repr, DecidableEq

/-- `Stmt.ColumnInt`: `int(C.sqlite3_column_int(...))`.  The C interface
returns a 32-bit `int`, so the stored 64-bit value is narrowed before the
Go-side widening back to `int`. -/
def columnInt (stored : Int) : Int := toInt32 stored

/-- `Stmt.ColumnInt64`: `int64(C.sqlite3_column_int64(...))`, the lossless
64-bit extraction (present in the source but unused by `ColumnDynamic`). -/
def columnInt64 (stored : Int) : Int := stored

/-- `Stmt.ColumnText` (size 0 yields the empty string). -/
def columnText (s : GoStr) : GoStr := s

/-- `Stmt.ColumnBlob` (size 0 yields a nil slice, modelled as `[]`). -/
def columnBlob (bs : List Nat) : List Nat := bs

/-- `Stmt.ColumnDynamic`: extract a cell according to the engine-reported
column type.  The integer arm calls `ColumnInt`, mirroring the source. -/
def columnDynamic : StoredCell → Except GoStr GoCell
  | .intCell v => .ok (.goIntC (columnInt v))
  | .realCell v => .ok (.goFloatC v)
  | .textCell s => .ok (.goStrC (columnText s))
  | .blobCell bs => .ok (.goBytesC (columnBlob bs))
  | .nullCell => .ok .goNilC

end Sqlitec

/-- The classification of a SQL text (`db.queryType`, an enum over the
strings below). -/
inductive QueryType where
  | qUnknown
  | qRead
  | qWrite
  | qBegin
  | qCommit
  | qRollback
  deriving Repr, DecidableEq

/-- The enum member's string value. -/
def QueryType.value : QueryType → GoStr
  | .qUnknown => gs "unknown"
  | .qRead => gs "read"
  | .qWrite => gs "write"
  | .qBegin => gs "begin"
  | .qCommit => gs "commit"
  | .qRollback => gs "rollback"

namespace DbRaw

/-!
Embedding of the `db` package built on `sqlitec` raw connections (the
revision holding a single transaction-id slot): `detectQueryType`,
`isCurrentTx`, `matchCurrentTx`, `executeBeginQuery`, `executeWriteQuery`
and `executeReadQuery`.  Pool bookkeeping, the write mutex and the stats
increments are concurrency plumbing with no bearing on the routed data and
are not part of the state here (the stats side of `Query` is modelled
separately below).  Wall-clock instants are modelled as `Nat`, passed as a
`now` argument where the source calls `time.Now()`.
-/

/-- Sentinel `ErrTxWithinTx`. -/
def errTxWithinTx : GoStr := gs "cannot start a transaction within a transaction"

/-- Sentinel `ErrTxNotFound`. -/
def errTxNotFound : GoStr := gs "transaction not found or timed out, check your settings"

/-- Sentinel `ErrTxNotMatch`. -/
def errTxNotMatch : GoStr := gs "transaction ID does not match the currently active transaction"

/-- Result of `sqlitec.Conn.Query` as consumed by this package (the
monotonic duration is dropped). -/
structure SqlResult where
  lastInsertID : Int := 0
  rowsAffected : Int := 0
  columns : List GoStr := []
  types : List GoStr := []
  rows : List (List Sqlitec.GoCell) := []
  deriving Repr, DecidableEq

/-- The ambient engine: what each pool's connection answers to the calls the
`db` package issues.  `readerAcquire`/`writerAcquire` are the outcomes of
`getReadOnlyRawConn`/`getReadWriteRawConn`; `readerPrepareReadOnly` is
`conn.Prepare` followed by `stmt.ReadOnly` on a reader connection;
`readerQuery` and `writerQuery` are `conn.Query` on a reader connection and
on the writer connection.  Distinguishing the two query functions is what
lets a theorem observe which pool a statement was routed to. -/
structure Engine where
  readerAcquire : Except GoStr Unit
  writerAcquire : Except GoStr Unit
  readerPrepareReadOnly : GoStr → Except GoStr Bool
  readerQuery : GoStr → List Sqlitec.QueryParam → Except GoStr SqlResult
  writerQuery : GoStr → List Sqlitec.QueryParam → Except GoStr SqlResult
  freshUuid : GoStr

/-- The transaction slot: `txId` (empty = none) and its last-used instant. -/
structure DbState where
  txId : GoStr
  txIdLastUsed : Nat
  deriving Repr, DecidableEq

/-- A query to be executed (`db.Query` the struct). -/
structure QueryReq where
  txId : GoStr := []
  query : GoStr := []
  params : List Sqlitec.QueryParam := []
  deriving Repr, DecidableEq

/-- The result of a query (`db.QueryResult`). -/
structure QueryResult where
  type : QueryType
  txId : GoStr := []
  lastInsertID : Int := 0
  rowsAffected : Int := 0
  columns : List GoStr := []
  types : List GoStr := []
  rows : List (List Sqlitec.GoCell) := []
  deriving Repr, DecidableEq

/-- `db.detectQueryType`: prefix classification of transaction control,
otherwise prepare on a reader connection and inspect the read-only flag.
Returns the classification and the error (`nil` modelled as `none`). -/
def detectQueryType (eng : Engine) (query : GoStr) : QueryType × Option GoStr :=
  let trimmed := goToLower (goTrimSpace query)
  if goHasPrefixStr trimmed (gs "begin") then (.qBegin, none)
  else if goHasPrefixStr trimmed (gs "commit") then (.qCommit, none)
  else if goHasPrefixStr trimmed (gs "rollback") ||
      goHasPrefixStr trimmed (gs "end transaction") then (.qRollback, none)
  else
    match eng.readerAcquire with
    | .error e => (.qUnknown, some (gs "failed to get connection: " ++ e))
    | .ok _ =>
        match eng.readerPrepareReadOnly query with
        | .error e => (.qUnknown, some (gs "failed to prepare statement: " ++ e))
        | .ok readOnly => if readOnly then (.qRead, none) else (.qWrite, none)

/-- `db.isCurrentTx`: true only if the given id is non-empty and equals the
non-empty current id; in that case the last-used instant is refreshed. -/
def isCurrentTx (st : DbState) (txId : GoStr) (now : Nat) : Bool × DbState :=
  let current := st.txId
  if txId = [] || current = [] || txId ≠ current then (false, st)
  else (true, { st with txIdLastUsed := now })

/-- `db.matchCurrentTx`: an empty id passes outright, otherwise defer to
`isCurrentTx`. -/
def matchCurrentTx (st : DbState) (txId : GoStr) (now : Nat) : Bool × DbState :=
  if txId = [] then (true, st) else isCurrentTx st txId now

/-- `db.executeBeginQuery`: refuse when a transaction is already active (or
when the incoming id is the current one — a check that can only run with the
slot empty), then run `BEGIN TRANSACTION` on the writer, store a fresh UUID
and refresh last-used. -/
def executeBeginQuery (eng : Engine) (st : DbState) (now : Nat)
    (queryTxId : GoStr) : Except GoStr QueryResult × DbState :=
  if st.txId ≠ [] then (.error errTxWithinTx, st)
  else
    let res := isCurrentTx st queryTxId now
    if res.1 then (.error errTxWithinTx, res.2)
    else
      match eng.writerAcquire with
      | .error e =>
          (.error (gs "failed to get read-write connection from pool: " ++ e), res.2)
      | .ok _ =>
          match eng.writerQuery (gs "BEGIN TRANSACTION") [] with
          | .error e => (.error (gs "failed to begin transaction: " ++ e), res.2)
          | .ok _ =>
              let txId := eng.freshUuid
              (.ok { type := .qBegin, txId := txId },
                { res.2 with txId := txId, txIdLastUsed := now })

/-- `db.executeWriteQuery`: gate on `matchCurrentTx`, then run the statement
on the writer connection. -/
def executeWriteQuery (eng : Engine) (st : DbState) (now : Nat)
    (q : QueryReq) : Except GoStr QueryResult × DbState :=
  let gate := matchCurrentTx st q.txId now
  if !gate.1 then (.error errTxNotMatch, gate.2)
  else
    match eng.writerAcquire with
    | .error e =>
        (.error (gs "failed to get read-write connection from pool: " ++ e), gate.2)
    | .ok _ =>
        match eng.writerQuery q.query q.params with
        | .error e => (.error (gs "failed to execute write query: " ++ e), gate.2)
        | .ok res =>
            (.ok { type := .qWrite, txId := q.txId,
                   lastInsertID := res.lastInsertID,
                   rowsAffected := res.rowsAffected,
                   columns := res.columns, types := res.types,
                   rows := res.rows }, gate.2)

/-- `db.executeReadQuery`: gate on `matchCurrentTx`, then run the statement
on a connection from the read-only pool (`getReadOnlyRawConn`),
unconditionally — the transaction id plays no part in the routing. -/
def executeReadQuery (eng : Engine) (st : DbState) (now : Nat)
    (q : QueryReq) : Except GoStr QueryResult × DbState :=
  let gate := matchCurrentTx st q.txId now
  if !gate.1 then (.error errTxNotMatch, gate.2)
  else
    match eng.readerAcquire with
    | .error e => (.error (gs "failed to get connection: " ++ e), gate.2)
    | .ok _ =>
        match eng.readerQuery q.query q.params with
        | .error e => (.error (gs "failed to execute read query: " ++ e), gate.2)
        | .ok res =>
            (.ok { type := .qRead, txId := q.txId,
                   lastInsertID := res.lastInsertID,
                   rowsAffected := res.rowsAffected,
                   columns := res.columns, types := res.types,
                   rows := res.rows }, gate.2)

end DbRaw

namespace Stats

/-!
The `db.Query` wrapper of the raw-connection revision calls
`db.DBStats.IncErrors()` whenever the underlying `query` returns an error.
The stats revision defining `IncErrors` and the matching minute bucket is
not among the sources; the bucket and `IncErrors` are therefore modelled
from the spec, while the wrapper itself is transcribed from the source.
-/

/-- Modelled from the spec: the minute bucket of the stats registry revision
that defines `IncErrors` is missing from the sources; per the spec a bucket
is `minute_utc_rfc3339` mapping to the seven counters
`reads, writes, begins, commits, rollbacks, errors, http_requests`. -/
structure MinuteBucket where
  reads : Nat := 0
  writes : Nat := 0
  begins : Nat := 0
  commits : Nat := 0
  rollbacks : Nat := 0
  errors : Nat := 0
  httpRequests : Nat := 0
  deriving Repr, DecidableEq

/-- The minute map, keyed by the RFC3339 UTC minute string. -/
def StatsMap := List (GoStr × MinuteBucket)

/-- The bucket stored for a key, or the zero bucket when absent. -/
def bucketOf (m : List (GoStr × MinuteBucket)) (key : GoStr) : MinuteBucket :=
  match m with
  | [] => {}
  | (k, b) :: rest => if k = key then b else bucketOf rest key

/-- Modelled from the spec: `IncErrors` bumps the `errors` counter of the
bucket for the current minute, creating the bucket on first use (the
`getOrCreateMinuteData` pattern of the in-source stats revisions). -/
def incErrors (m : List (GoStr × MinuteBucket)) (key : GoStr) :
    List (GoStr × MinuteBucket) :=
  match m with
  | [] => [(key, { errors := 1 })]
  | (k, b) :: rest =>
      if k = key then (k, { b with errors := b.errors + 1 }) :: rest
      else (k, b) :: incErrors rest key

/-- `db.Query` (the exported wrapper): run the underlying `query` and, when
it returns an error, increment the errors counter of the current minute
bucket; the result is passed through unchanged.  `underlying` stands for
the outcome of `db.query` and `key` for the current UTC minute. -/
def queryWrapper (underlying : Except GoStr DbRaw.QueryResult)
    (m : List (GoStr × MinuteBucket)) (key : GoStr) :
    Except GoStr DbRaw.QueryResult × List (GoStr × MinuteBucket) :=
  match underlying with
  | .error e => (.error e, incErrors m key)
  | .ok r => (.ok r, m)

end Stats

namespace Server

/-!
Embedding of the `server` package: the request-body parser
`queryParseRequest`, the auth middleware `queryHandlerAuthMiddleware` with
`checkPlaintextAuth`, and the per-statement result assembly of
`queryHandler`.
-/

/-- A decoded JSON value, as produced by `json.Unmarshal` into `any`
(objects become maps, arrays slices, numbers `float64`). -/
inductive JValue where
  | jnull
  | jbool (b : Bool)
  | jnum (v : ℚ)
  | jstr (s : GoStr)
  | jarr (elems : List JValue)
  | jobj (fields : List (GoStr × JValue))
  deriving Repr

/-- Map lookup on a decoded JSON object (`content[k]`); the field list
models the decoded Go map, so keys are unique and order is immaterial. -/
def mapGet : List (GoStr × JValue) → GoStr → Option JValue
  | [], _ => none
  | (k, v) :: rest, key => if k = key then some v else mapGet rest key

/-- The Go type assertion `x.(string)` with `""` on failure or absence. -/
def asString : Option JValue → GoStr
  | some (.jstr s) => s
  | _ => []

/-- The Go type assertion `x.([]any)` with `nil` on failure or absence. -/
def asParams : Option JValue → List JValue
  | some (.jarr xs) => xs
  | _ => []

/-- A single query within a request (`server.Query`). -/
structure SQuery where
  txId : GoStr := []
  query : GoStr := []
  params : List JValue := []
  deriving Repr

/-- The `case []any` loop of `queryParseRequest`: strings become statements,
objects carry query, params and their own optional txId; anything else is an
invalid array item. -/
def parseArrayItems : List JValue → Except GoStr (List SQuery)
  | [] => .ok []
  | .jstr s :: rest =>
      let trimmedQuery := goTrimSpace s
      if trimmedQuery = [] then .error (gs "empty query")
      else
        match parseArrayItems rest with
        | .error e => .error e
        | .ok l => .ok ({ query := trimmedQuery } :: l)
  | .jobj fields :: rest =>
      let q := goTrimSpace (asString (mapGet fields (gs "query")))
      let ps := asParams (mapGet fields (gs "params"))
      let tx := asString (mapGet fields (gs "txId"))
      if q = [] then .error (gs "empty query")
      else
        match parseArrayItems rest with
        | .error e => .error e
        | .ok l => .ok ({ txId := tx, query := q, params := ps } :: l)
  | _ :: _ => .error (gs "invalid array item")

/-- The `queries` loop of the batch object shape: every item must be an
object; a per-item `txId` that is a string overrides the top-level one,
otherwise the top-level id is inherited. -/
def parseBatchItems (topLevelTxID : GoStr) :
    List JValue → Except GoStr (List SQuery)
  | [] => .ok []
  | .jobj fields :: rest =>
      let q := goTrimSpace (asString (mapGet fields (gs "query")))
      let ps := asParams (mapGet fields (gs "params"))
      let tx :=
        match mapGet fields (gs "txId") with
        | some (.jstr s) => s
        | _ => topLevelTxID
      if q = [] then .error (gs "empty query")
      else
        match parseBatchItems topLevelTxID rest with
        | .error e => .error e
        | .ok l => .ok ({ txId := tx, query := q, params := ps } :: l)
  | _ :: _ => .error (gs "invalid query object")

/-- `server.queryParseRequest`: dispatch on the content type, then for JSON
on the outermost JSON kind.  `isJSON` is the outcome of the content-type
check; `decoded` is the outcome of `json.Unmarshal` on the body. -/
def queryParseRequest (isJSON : Bool) (body : GoStr)
    (decoded : Except GoStr JValue) : Except GoStr (List SQuery) :=
  if !isJSON then
    let trimmedQuery := goTrimSpace body
    if trimmedQuery = [] then .error (gs "empty query")
    else .ok [{ query := trimmedQuery }]
  else
    match decoded with
    | .error e => .error e
    | .ok content =>
        match content with
        | .jstr s =>
            let trimmedQuery := goTrimSpace s
            if trimmedQuery = [] then .error (gs "empty query")
            else .ok [{ query := trimmedQuery }]
        | .jarr elems => parseArrayItems elems
        | .jobj fields =>
            let topLevelTxID := asString (mapGet fields (gs "txId"))
            match mapGet fields (gs "queries") with
            | some (.jarr items) => parseBatchItems topLevelTxID items
            | _ =>
                let q := goTrimSpace (asString (mapGet fields (gs "query")))
                let ps := asParams (mapGet fields (gs "params"))
                if q = [] then .error (gs "no valid query found")
                else .ok [{ txId := topLevelTxID, query := q, params := ps }]
        | _ => .error (gs "unsupported JSON structure")

/-- What the auth middleware does with a request. -/
inductive AuthOutcome where
  | next
  | unauthorized401
  deriving Repr, DecidableEq

/-- `server.checkPlaintextAuth`: Go string equality of the two tokens. -/
def checkPlaintextAuth (clientToken serverToken : GoStr) : Bool :=
  clientToken = serverToken

/-- `server.queryHandlerAuthMiddleware`: empty configured token disables
auth; otherwise strip the exact prefix `Bearer ` and then the exact prefix
`bearer ` from the `Authorization` header, reject an empty remainder, and
pass the request only when the check of the configured algorithm accepts
the remainder; every other path answers HTTP 401.  `argonCheck` and
`bcryptCheck` model `cryptoutil.Argon2CheckHash` / `BcryptCheckHash`. -/
def queryHandlerAuthMiddleware (argonCheck bcryptCheck : GoStr → GoStr → Bool)
    (authToken authTokenAlgorithm header : GoStr) : AuthOutcome :=
  if authToken = [] then .next
  else
    let clientAuthToken := goTrimPrefixStr header (gs "Bearer ")
    let clientAuthToken := goTrimPrefixStr clientAuthToken (gs "bearer ")
    if clientAuthToken = [] then .unauthorized401
    else if authTokenAlgorithm = gs "plaintext" &&
        checkPlaintextAuth clientAuthToken authToken then .next
    else if authTokenAlgorithm = gs "argon2" &&
        argonCheck clientAuthToken authToken then .next
    else if authTokenAlgorithm = gs "bcrypt" &&
        bcryptCheck clientAuthToken authToken then .next
    else .unauthorized401

/-- The claim's reading of the header handling: strip one case-insensitive
`Bearer ` prefix, then accept exactly when the algorithm's check verifies
the remainder against the configured token.  Stated from the claim's words
for comparison with the source function. -/
def stripBearerCaseInsensitive (header : GoStr) : GoStr :=
  if goToLower (header.take 7) = gs "bearer " then header.drop 7 else header

/-- The claim's reading of the middleware as a whole (spec words, not
source): pass iff auth is disabled or the case-insensitively stripped
header verifies under the configured algorithm. -/
def authMiddlewareClaimed (argonCheck bcryptCheck : GoStr → GoStr → Bool)
    (authToken authTokenAlgorithm header : GoStr) : AuthOutcome :=
  if authToken = [] then .next
  else
    let t := stripBearerCaseInsensitive header
    if (authTokenAlgorithm = gs "plaintext" && checkPlaintextAuth t authToken) ||
        (authTokenAlgorithm = gs "argon2" && argonCheck t authToken) ||
        (authTokenAlgorithm = gs "bcrypt" && bcryptCheck t authToken) then .next
    else .unauthorized401

end Server

namespace DbTx

/-!
Embedding of `internal/nsqlited/db/db.go`, the revision that keeps a map of
named `*sql.Tx` transactions: `getTransactionById`, the five executors and
the `Query` dispatcher, as far as the query endpoint's result handling
depends on them.  The transaction map is modelled by its key set (the
`lastUsed` refresh does not influence any routed data here).  Row iteration
of `*sql.Rows` is modelled by the outcome record `RowsData`: the column
lookup, the scanned rows (a scan error at any row aborting the loop) and
the column types computed on the first row.
-/

/-- Sentinel `ErrTransactionNotFound`. -/
def errTransactionNotFound : GoStr :=
  gs "transaction not found or timed out, check your settings"

/-- What iterating a `*sql.Rows` result yields. -/
structure RowsData where
  columns : Except GoStr (List GoStr)
  scanned : Except GoStr (List (List Sqlitec.GoCell))
  firstRowTypes : Except GoStr (List GoStr)

/-- The ambient engine of this revision.  `detect` is the outcome of
`detectQueryType` (same prefix-else-prepare algorithm as the raw-connection
revision); `txQuery`/`connQuery` are `QueryContext` on the named
transaction and on the read-only pool; `txExec`/`connExec` are
`ExecContext` returning `(LastInsertId, RowsAffected)`; `beginOutcome`,
`commitOutcome` and `rollbackOutcome` are the engine sides of
`Begin`/`Commit`/`Rollback`. -/
structure TxEngine where
  detect : GoStr → QueryType × Option GoStr
  txQuery : GoStr → List Server.JValue → Except GoStr RowsData
  connQuery : GoStr → List Server.JValue → Except GoStr RowsData
  txExec : GoStr → List Server.JValue → Except GoStr (Int × Int)
  connExec : GoStr → List Server.JValue → Except GoStr (Int × Int)
  beginOutcome : Except GoStr Unit
  commitOutcome : Except GoStr Unit
  rollbackOutcome : Except GoStr Unit
  freshUuid : GoStr

/-- A query to be executed (`db.Query` the struct of this revision). -/
structure QueryReq where
  txId : GoStr := []
  query : GoStr := []
  params : List Server.JValue := []

/-- `db.WriteResult`. -/
structure WriteResult where
  lastInsertID : Int := 0
  rowsAffected : Int := 0
  deriving Repr, DecidableEq

/-- `db.ReadResult`; the `*[][]any` pointer is modelled as an `Option`, so
`none` is the nil pointer of a zero value. -/
structure ReadResult where
  columns : List GoStr := []
  types : List GoStr := []
  values : Option (List (List Sqlitec.GoCell)) := none
  deriving Repr, DecidableEq

/-- `db.QueryResult` of this revision. -/
structure QueryResult where
  type : QueryType
  txId : GoStr := []
  writeResult : WriteResult := {}
  readResult : ReadResult := {}
  deriving Repr, DecidableEq

/-- `db.getTransactionById` reduced to what callers branch on: whether the
id names a live transaction and the error (`found`, `err`).  An empty id is
not found and no error; a non-empty id absent from the map is an error. -/
def getTransactionById (txs : List GoStr) (txId : GoStr) : Bool × Option GoStr :=
  if txId = [] then (false, none)
  else if txId ∈ txs then (true, none)
  else (false, some errTransactionNotFound)

/-- The tail of `db.executeReadQuery` after the engine call: look up the
columns, run the scan loop — computing the column types on the first row —
and return the scanned rows behind the always-initialized `values` slice. -/
def assembleReadResult (txId : GoStr) (res : Except GoStr RowsData) :
    Except GoStr QueryResult :=
  match res with
  | .error e => .error (gs "failed to execute read query: " ++ e)
  | .ok rows =>
      match rows.columns with
      | .error e => .error (gs "failed to get columns: " ++ e)
      | .ok cols =>
          match rows.scanned with
          | .error e => .error (gs "failed to scan row: " ++ e)
          | .ok vals =>
              match (if vals = [] then Except.ok []
                     else
                       match rows.firstRowTypes with
                       | .error e =>
                           .error (gs "failed to get column types: " ++ e)
                       | .ok ts => Except.ok ts : Except GoStr (List GoStr)) with
              | .error e => .error e
              | .ok ts =>
                  .ok { type := .qRead, txId := txId,
                        readResult := { columns := cols, types := ts,
                                        values := some vals } }

/-- `db.executeReadQuery` of this revision: inside a live transaction the
statement runs on the transaction, otherwise on the read-only pool; the
result is assembled by `assembleReadResult`. -/
def executeReadQuery (eng : TxEngine) (txs : List GoStr)
    (q : QueryReq) : Except GoStr QueryResult :=
  match getTransactionById txs q.txId with
  | (_, some e) => .error (gs "failed to get transaction: " ++ e)
  | (found, none) =>
      assembleReadResult q.txId
        (if found then eng.txQuery q.query q.params
         else eng.connQuery q.query q.params)

/-- `db.executeWriteQuery` of this revision. -/
def executeWriteQuery (eng : TxEngine) (txs : List GoStr)
    (q : QueryReq) : Except GoStr QueryResult :=
  match getTransactionById txs q.txId with
  | (_, some e) => .error (gs "failed to get transaction: " ++ e)
  | (found, none) =>
      match (if found then eng.txExec q.query q.params
             else eng.connExec q.query q.params) with
      | .error e => .error (gs "failed to execute write query: " ++ e)
      | .ok r =>
          .ok { type := .qWrite, txId := q.txId,
                writeResult := { lastInsertID := r.1, rowsAffected := r.2 } }

/-- `db.executeBeginQuery` of this revision: begin on the writer, register
a fresh UUID in the transaction map. -/
def executeBeginQuery (eng : TxEngine) (txs : List GoStr) :
    Except GoStr QueryResult × List GoStr :=
  match eng.beginOutcome with
  | .error e => (.error (gs "failed to begin transaction: " ++ e), txs)
  | .ok _ =>
      (.ok { type := .qBegin, txId := eng.freshUuid }, eng.freshUuid :: txs)

/-- `db.executeCommitQuery` of this revision. -/
def executeCommitQuery (eng : TxEngine) (txs : List GoStr)
    (q : QueryReq) : Except GoStr QueryResult × List GoStr :=
  match getTransactionById txs q.txId with
  | (false, _) => (.error errTransactionNotFound, txs)
  | (true, _) =>
      match eng.commitOutcome with
      | .error e => (.error (gs "failed to commit transaction: " ++ e), txs)
      | .ok _ =>
          (.ok { type := .qCommit, txId := q.txId }, txs.filter (· ≠ q.txId))

/-- `db.executeRollbackQuery` of this revision. -/
def executeRollbackQuery (eng : TxEngine) (txs : List GoStr)
    (q : QueryReq) : Except GoStr QueryResult × List GoStr :=
  match getTransactionById txs q.txId with
  | (false, _) => (.error errTransactionNotFound, txs)
  | (true, _) =>
      match eng.rollbackOutcome with
      | .error e => (.error (gs "failed to rollback transaction: " ++ e), txs)
      | .ok _ =>
          (.ok { type := .qRollback, txId := q.txId }, txs.filter (· ≠ q.txId))

/-- `db.Query` of this revision: classify, refuse `BEGIN` carrying a tx id,
then dispatch to the matching executor. -/
def dbQuery (eng : TxEngine) (txs : List GoStr)
    (q : QueryReq) : Except GoStr QueryResult × List GoStr :=
  match eng.detect q.query with
  | (_, some e) => (.error (gs "failed to detect query type: " ++ e), txs)
  | (typeOfQuery, none) =>
      if typeOfQuery = .qBegin ∧ q.txId ≠ [] then
        (.error (gs "stepping, cannot start a transaction within a transaction"), txs)
      else
        match typeOfQuery with
        | .qBegin => executeBeginQuery eng txs
        | .qCommit => executeCommitQuery eng txs q
        | .qRollback => executeRollbackQuery eng txs q
        | .qRead => (executeReadQuery eng txs q, txs)
        | .qWrite => (executeWriteQuery eng txs q, txs)
        | .qUnknown =>
            (.error (gs "unknown query type: " ++ QueryType.value .qUnknown), txs)

end DbTx

namespace Server

/-- The per-statement outcome the query endpoint appends to `results`
(wall-clock `time` fields left out). -/
inductive Outcome where
  | readOut (columns types : List GoStr) (values : List (List Sqlitec.GoCell))
  | writeOut (lastInsertId rowsAffected : Int)
  | txOut (t : QueryType) (txId : GoStr)
  | okOut
  | errorOut (msg : GoStr)
  deriving Repr, DecidableEq

/-- The result-assembly branch of `server.queryHandler` for one successful
engine result: a read with a nil `values` pointer is downgraded to an error
outcome `No rows returned`; otherwise each result type maps to its
envelope variant. -/
def queryHandlerResult (res : DbTx.QueryResult) : Outcome :=
  if res.type = .qRead then
    match res.readResult.values with
    | none => .errorOut (gs "No rows returned")
    | some vs => .readOut res.readResult.columns res.readResult.types vs
  else if res.type = .qWrite then
    .writeOut res.writeResult.lastInsertID res.writeResult.rowsAffected
  else if res.type = .qBegin then .txOut .qBegin res.txId
  else if res.type = .qCommit then .txOut .qCommit res.txId
  else if res.type = .qRollback then .txOut .qRollback res.txId
  else .okOut

end Server

/-!
Settling the claims.
-/

/-- An engine for exercising `DbRaw.executeReadQuery` while a transaction
is open: the reader pool answers from the committed snapshot (no rows),
the writer connection — holding the open transaction — would answer with
the uncommitted row. -/
def c1Engine : DbRaw.Engine where
  readerAcquire := .ok ()
  writerAcquire := .ok ()
  readerPrepareReadOnly := fun _ => .ok true
  readerQuery := fun _ _ =>
    .ok { columns := [gs "v"], types := [gs "TEXT"], rows := [] }
  writerQuery := fun _ _ =>
    .ok { columns := [gs "v"], types := [gs "TEXT"], rows := [[.goStrC (gs "x")]] }
  freshUuid := gs "uuid-1"

/-- C1: a read carrying the current transaction id passes the gate but is
executed through the read-only pool, returning the reader connection's
(committed) answer — empty here — although the writer connection holding
the uncommitted work would have answered with the pending row.  The claim's
routing of in-transaction reads to the writer connection does not happen. -/
theorem c1_inTx_read_runs_on_reader_pool :
    DbRaw.executeReadQuery c1Engine ⟨gs "tx-1", 0⟩ 7
        ⟨gs "tx-1", gs "SELECT v FROM t", []⟩ =
      (.ok { type := .qRead, txId := gs "tx-1",
             columns := [gs "v"], types := [gs "TEXT"], rows := [] },
       ⟨gs "tx-1", 7⟩) ∧
    c1Engine.writerQuery (gs "SELECT v FROM t") [] =
      .ok { columns := [gs "v"], types := [gs "TEXT"],
            rows := [[.goStrC (gs "x")]] } ∧
    ([] : List (List Sqlitec.GoCell)) ≠ [[.goStrC (gs "x")]] :=
  ⟨rfl, rfl, by decide⟩

/-- An engine for exercising `DbRaw.executeBeginQuery`. -/
def c2Engine : DbRaw.Engine where
  readerAcquire := .ok ()
  writerAcquire := .ok ()
  readerPrepareReadOnly := fun _ => .ok false
  readerQuery := fun _ _ => .ok {}
  writerQuery := fun _ _ => .ok {}
  freshUuid := gs "uuid-fresh"

/-- C2: with no transaction active, a begin carrying the non-empty foreign
id `bogus` succeeds and installs a fresh UUID — the incoming-id check of
`executeBeginQuery` is unreachable, so the tx-within-tx failure the claim
requires for a non-empty incoming id does not occur (the current-id half of
the guard does hold, shown last). -/
theorem c2_begin_with_foreign_id_succeeds :
    DbRaw.executeBeginQuery c2Engine ⟨[], 0⟩ 5 (gs "bogus") =
      (.ok { type := .qBegin, txId := gs "uuid-fresh" }, ⟨gs "uuid-fresh", 5⟩) ∧
    gs "bogus" ≠ [] ∧
    DbRaw.executeBeginQuery c2Engine ⟨gs "live-tx", 3⟩ 5 [] =
      (.error DbRaw.errTxWithinTx, ⟨gs "live-tx", 3⟩) :=
  ⟨rfl, by decide, rfl⟩

/-- C5: `ColumnDynamic` extracts an integer cell through `ColumnInt`, the
32-bit column interface, so the stored 64-bit value 4294967301 comes back
as 5; the lossless 64-bit extraction the claim describes is the unused
`ColumnInt64`. -/
theorem c5_integer_cell_truncated_to_32_bits :
    Sqlitec.columnDynamic (.intCell 4294967301) = .ok (.goIntC 5) ∧
    (5 : Int) ≠ 4294967301 ∧
    Sqlitec.columnInt64 4294967301 = 4294967301 :=
  ⟨rfl, by decide, rfl⟩

/-- C9 counterexample: with plaintext token `tok` configured, the header
value `BEARER tok` is rejected by the middleware (only the exact prefixes
`Bearer ` and `bearer ` are stripped), while the claim's case-insensitive
stripping would accept it. -/
theorem c9_uppercase_bearer_rejected :
    Server.queryHandlerAuthMiddleware (fun _ _ => false) (fun _ _ => false)
        (gs "tok") (gs "plaintext") (gs "BEARER tok") = .unauthorized401 ∧
    Server.authMiddlewareClaimed (fun _ _ => false) (fun _ _ => false)
        (gs "tok") (gs "plaintext") (gs "BEARER tok") = .next :=
  ⟨rfl, rfl⟩

/-- C9 amended: with an empty configured token every request passes; with a
non-empty token a request passes exactly when the header value, after the
exact prefixes `Bearer ` and then `bearer ` are each stripped at most once
in that order, is non-empty and verifies under the configured algorithm
(plain byte equality for `plaintext`); every other request is answered
with HTTP 401. -/
theorem c9_amended_auth_characterization
    (argonCheck bcryptCheck : GoStr → GoStr → Bool)
    (authToken authTokenAlgorithm header : GoStr) :
    (Server.queryHandlerAuthMiddleware argonCheck bcryptCheck
        authToken authTokenAlgorithm header = .next ↔
      (authToken = [] ∨
        (goTrimPrefixStr (goTrimPrefixStr header (gs "Bearer ")) (gs "bearer ") ≠ [] ∧
          ((authTokenAlgorithm = gs "plaintext" ∧
              goTrimPrefixStr (goTrimPrefixStr header (gs "Bearer ")) (gs "bearer ") =
                authToken) ∨
           (authTokenAlgorithm = gs "argon2" ∧
              argonCheck
                (goTrimPrefixStr (goTrimPrefixStr header (gs "Bearer ")) (gs "bearer "))
                authToken = true) ∨
           (authTokenAlgorithm = gs "bcrypt" ∧
              bcryptCheck
                (goTrimPrefixStr (goTrimPrefixStr header (gs "Bearer ")) (gs "bearer "))
                authToken = true))))) ∧
    (Server.queryHandlerAuthMiddleware argonCheck bcryptCheck
        authToken authTokenAlgorithm header ≠ .next →
      Server.queryHandlerAuthMiddleware argonCheck bcryptCheck
        authToken authTokenAlgorithm header = .unauthorized401) := by
  constructor
  · simp only [Server.queryHandlerAuthMiddleware, Server.checkPlaintextAuth]
    split_ifs <;> simp_all
  · intro h
    cases hE : Server.queryHandlerAuthMiddleware argonCheck bcryptCheck
        authToken authTokenAlgorithm header with
    | next => exact absurd hE h
    | unauthorized401 => rfl

/-- C3: the classifier decides begin/commit/rollback (including
`end transaction`) by prefix match on the lowercased-trimmed text without
consulting the engine at all — the result is the same for any two engines —
and for any other text the statement is prepared on a reader connection,
classified `read` exactly when the engine's read-only flag is set and
`write` otherwise, while a preparation failure yields `unknown` together
with the engine's error text. -/
theorem c3_classifier_spec (eng eng2 : DbRaw.Engine) (q : GoStr) :
    (goHasPrefixStr (goToLower (goTrimSpace q)) (gs "begin") = true →
      DbRaw.detectQueryType eng q = (.qBegin, none)) ∧
    (goHasPrefixStr (goToLower (goTrimSpace q)) (gs "begin") = false →
      goHasPrefixStr (goToLower (goTrimSpace q)) (gs "commit") = true →
      DbRaw.detectQueryType eng q = (.qCommit, none)) ∧
    (goHasPrefixStr (goToLower (goTrimSpace q)) (gs "begin") = false →
      goHasPrefixStr (goToLower (goTrimSpace q)) (gs "commit") = false →
      (goHasPrefixStr (goToLower (goTrimSpace q)) (gs "rollback") ||
        goHasPrefixStr (goToLower (goTrimSpace q)) (gs "end transaction")) = true →
      DbRaw.detectQueryType eng q = (.qRollback, none)) ∧
    ((goHasPrefixStr (goToLower (goTrimSpace q)) (gs "begin") ||
      goHasPrefixStr (goToLower (goTrimSpace q)) (gs "commit") ||
      goHasPrefixStr (goToLower (goTrimSpace q)) (gs "rollback") ||
      goHasPrefixStr (goToLower (goTrimSpace q)) (gs "end transaction")) = true →
      DbRaw.detectQueryType eng q = DbRaw.detectQueryType eng2 q) ∧
    (goHasPrefixStr (goToLower (goTrimSpace q)) (gs "begin") = false →
      goHasPrefixStr (goToLower (goTrimSpace q)) (gs "commit") = false →
      goHasPrefixStr (goToLower (goTrimSpace q)) (gs "rollback") = false →
      goHasPrefixStr (goToLower (goTrimSpace q)) (gs "end transaction") = false →
      eng.readerAcquire = .ok () →
      ∀ readOnly : Bool, eng.readerPrepareReadOnly q = .ok readOnly →
        DbRaw.detectQueryType eng q =
          (if readOnly then (.qRead, none) else (.qWrite, none))) ∧
    (goHasPrefixStr (goToLower (goTrimSpace q)) (gs "begin") = false →
      goHasPrefixStr (goToLower (goTrimSpace q)) (gs "commit") = false →
      goHasPrefixStr (goToLower (goTrimSpace q)) (gs "rollback") = false →
      goHasPrefixStr (goToLower (goTrimSpace q)) (gs "end transaction") = false →
      eng.readerAcquire = .ok () →
      ∀ e : GoStr, eng.readerPrepareReadOnly q = .error e →
        DbRaw.detectQueryType eng q =
          (.qUnknown, some (gs "failed to prepare statement: " ++ e))) := by
  refine ⟨?_, ?_, ?_, ?_, ?_, ?_⟩
  · intro h1
    simp [DbRaw.detectQueryType, h1]
  · intro h1 h2
    simp [DbRaw.detectQueryType, h1, h2]
  · intro h1 h2 h3
    simp only [DbRaw.detectQueryType, h1, h2, h3]
    simp
  · intro h
    rcases Bool.or_eq_true_iff.mp h with h' | h4
    · rcases Bool.or_eq_true_iff.mp h' with h'' | h3
      · rcases Bool.or_eq_true_iff.mp h'' with h1 | h2
        · simp [DbRaw.detectQueryType, h1]
        · by_cases h1 : goHasPrefixStr (goToLower (goTrimSpace q)) (gs "begin") = true <;>
            simp_all [DbRaw.detectQueryType]
      · by_cases h1 : goHasPrefixStr (goToLower (goTrimSpace q)) (gs "begin") = true <;>
          by_cases h2 : goHasPrefixStr (goToLower (goTrimSpace q)) (gs "commit") = true <;>
            simp_all [DbRaw.detectQueryType]
    · by_cases h1 : goHasPrefixStr (goToLower (goTrimSpace q)) (gs "begin") = true <;>
        by_cases h2 : goHasPrefixStr (goToLower (goTrimSpace q)) (gs "commit") = true <;>
          simp_all [DbRaw.detectQueryType]
  · intro h1 h2 h3 h4 hAcq readOnly hPrep
    simp [DbRaw.detectQueryType, h1, h2, h3, h4, hAcq, hPrep]
  · intro h1 h2 h3 h4 hAcq e hPrep
    simp [DbRaw.detectQueryType, h1, h2, h3, h4, hAcq, hPrep]

/-- An engine whose reader connection prepares every text successfully with
the read-only flag set. -/
def c3ReadEngine : DbRaw.Engine where
  readerAcquire := .ok ()
  writerAcquire := .ok ()
  readerPrepareReadOnly := fun _ => .ok true
  readerQuery := fun _ _ => .ok {}
  writerQuery := fun _ _ => .ok {}
  freshUuid := gs "uuid-3"

/-- An engine whose reader connection fails to prepare every text with a
syntax-error message. -/
def c3FailEngine : DbRaw.Engine where
  readerAcquire := .ok ()
  writerAcquire := .ok ()
  readerPrepareReadOnly := fun _ => .error (gs "near SELEC: syntax error")
  readerQuery := fun _ _ => .ok {}
  writerQuery := fun _ _ => .ok {}
  freshUuid := gs "uuid-3"

/-- Witness for C3 at concrete inputs: `BEGIN IMMEDIATE` classifies as
begin on both engines, the read-only prepared text classifies as read, and
the failing text classifies as unknown with the engine's message. -/
theorem c3_classifier_spec_witness :
    DbRaw.detectQueryType c3ReadEngine (gs " BEGIN IMMEDIATE") = (.qBegin, none) ∧
    DbRaw.detectQueryType c3FailEngine (gs " BEGIN IMMEDIATE") = (.qBegin, none) ∧
    DbRaw.detectQueryType c3ReadEngine (gs "SELECT 1") = (.qRead, none) ∧
    DbRaw.detectQueryType c3FailEngine (gs "SELEC 1") =
      (.qUnknown, some (gs "failed to prepare statement: near SELEC: syntax error")) := by
  refine ⟨?_, ?_, ?_, ?_⟩
  · exact (c3_classifier_spec c3ReadEngine c3ReadEngine (gs " BEGIN IMMEDIATE")).1
      (by decide)
  · exact (c3_classifier_spec c3FailEngine c3FailEngine (gs " BEGIN IMMEDIATE")).1
      (by decide)
  · have h := (c3_classifier_spec c3ReadEngine c3ReadEngine (gs "SELECT 1")).2.2.2.2.1
      (by decide) (by decide) (by decide) (by decide) rfl true rfl
    simpa using h
  · exact (c3_classifier_spec c3FailEngine c3FailEngine (gs "SELEC 1")).2.2.2.2.2
      (by decide) (by decide) (by decide) (by decide) rfl
      (gs "near SELEC: syntax error") rfl

/-- C4: the transaction gate for reads and writes — an empty incoming id
passes and leaves the state untouched; a non-empty id differing from the
current one fails, and both the write and the read executor then return the
tx-not-match error; a non-empty id equal to the current one passes and
refreshes the last-used instant. -/
theorem c4_tx_gate_spec (eng : DbRaw.Engine) (st : DbRaw.DbState) (now : Nat)
    (t : GoStr) (q : DbRaw.QueryReq) :
    (t = [] → DbRaw.matchCurrentTx st t now = (true, st)) ∧
    (t ≠ [] → t ≠ st.txId → DbRaw.matchCurrentTx st t now = (false, st)) ∧
    (t ≠ [] → t = st.txId →
      DbRaw.matchCurrentTx st t now = (true, { st with txIdLastUsed := now })) ∧
    ((DbRaw.matchCurrentTx st q.txId now).1 = false →
      DbRaw.executeWriteQuery eng st now q =
        (.error DbRaw.errTxNotMatch, (DbRaw.matchCurrentTx st q.txId now).2) ∧
      DbRaw.executeReadQuery eng st now q =
        (.error DbRaw.errTxNotMatch, (DbRaw.matchCurrentTx st q.txId now).2)) := by
  refine ⟨?_, ?_, ?_, ?_⟩
  · intro h
    simp [DbRaw.matchCurrentTx, h]
  · intro h1 h2
    simp [DbRaw.matchCurrentTx, DbRaw.isCurrentTx, h1, h2]
  · intro h1 h2
    subst h2
    simp [DbRaw.matchCurrentTx, DbRaw.isCurrentTx, h1]
  · intro hGate
    constructor
    · simp [DbRaw.executeWriteQuery, hGate]
    · simp [DbRaw.executeReadQuery, hGate]

/-- An engine for the C4 witness whose calls all succeed trivially. -/
def c4Engine : DbRaw.Engine where
  readerAcquire := .ok ()
  writerAcquire := .ok ()
  readerPrepareReadOnly := fun _ => .ok false
  readerQuery := fun _ _ => .ok {}
  writerQuery := fun _ _ => .ok {}
  freshUuid := gs "uuid-4"

/-- Witness for C4 at concrete inputs: empty id passes, mismatching id
fails and makes the write executor return tx-not-match, matching id passes
and refreshes last-used. -/
theorem c4_tx_gate_spec_witness :
    DbRaw.matchCurrentTx ⟨gs "T", 3⟩ [] 9 = (true, ⟨gs "T", 3⟩) ∧
    DbRaw.matchCurrentTx ⟨gs "T", 3⟩ (gs "X") 9 = (false, ⟨gs "T", 3⟩) ∧
    DbRaw.matchCurrentTx ⟨gs "T", 3⟩ (gs "T") 9 = (true, ⟨gs "T", 9⟩) ∧
    DbRaw.executeWriteQuery c4Engine ⟨gs "T", 3⟩ 9 ⟨gs "X", gs "DELETE FROM t", []⟩ =
      (.error DbRaw.errTxNotMatch, ⟨gs "T", 3⟩) := by
  refine ⟨?_, ?_, ?_, ?_⟩
  · exact (c4_tx_gate_spec c4Engine ⟨gs "T", 3⟩ 9 [] {}).1 rfl
  · exact (c4_tx_gate_spec c4Engine ⟨gs "T", 3⟩ 9 (gs "X") {}).2.1
      (by decide) (by decide)
  · exact (c4_tx_gate_spec c4Engine ⟨gs "T", 3⟩ 9 (gs "T") {}).2.2.1
      (by decide) rfl
  · exact ((c4_tx_gate_spec c4Engine ⟨gs "T", 3⟩ 9 []
      ⟨gs "X", gs "DELETE FROM t", []⟩).2.2.2 rfl).1

/-- First non-zero entry of a list of indices (zero when none). -/
def firstNonzeroNat : List Nat → Nat
  | [] => 0
  | x :: rest => if x ≠ 0 then x else firstNonzeroNat rest

/-- The probe loop returns the first non-zero index among the prefixed
lookups, in list order. -/
theorem probeLoop_eq_firstNonzero (lookup : GoStr → Nat) (name : GoStr)
    (l : List GoStr) :
    Sqlitec.probeLoop lookup name l =
      firstNonzeroNat (l.map (fun p => lookup (p ++ name))) := by
  induction l with
  | nil => rfl
  | cons p rest ih => simp [Sqlitec.probeLoop, firstNonzeroNat, ih]

/-- In a parameter vector of nameless parameters, the bind loop starting at
offset `i` binds the `j`-th parameter at positional index `i + j + 1`. -/
theorem bindParams_positional (lookup : GoStr → Nat)
    (ps : List Sqlitec.QueryParam) :
    ∀ (i : Nat) (l : List (Nat × Sqlitec.BindOp)),
      (∀ p ∈ ps, p.name = []) →
      Sqlitec.bindParams lookup ps i = .ok l →
      ∀ (j : Nat) (hj : j < l.length), (l.get ⟨j, hj⟩).1 = i + j + 1 := by
  induction ps with
  | nil =>
    intro i l _ h j hj
    simp [Sqlitec.bindParams] at h
    subst h
    simp at hj
  | cons p rest ih =>
    intro i l hAll h j hj
    have hname : p.name = [] := hAll p (by simp)
    simp only [Sqlitec.bindParams, hname, if_pos] at h
    cases hOp : Sqlitec.bindDynamic p.value with
    | error e => rw [hOp] at h; exact absurd h (by simp)
    | ok op =>
      rw [hOp] at h
      cases hRec : Sqlitec.bindParams lookup rest (i + 1) with
      | error e => rw [hRec] at h; exact absurd h (by simp)
      | ok lRest =>
        rw [hRec] at h
        have hl : l = (i + 1, op) :: lRest := by
          cases h
          rfl
        subst hl
        cases j with
        | zero => simp
        | succ j' =>
          have hj' : j' < lRest.length := by simpa using hj
          have hIdx := ih (i + 1) lRest (fun p hp => hAll p (by simp [hp])) hRec j' hj'
          have hGet : ((i + 1, op) :: lRest).get ⟨j' + 1, hj⟩ =
              lRest.get ⟨j', hj'⟩ := rfl
          rw [hGet, hIdx]
          omega

/-- C6: the parameter binder — a nameless parameter at position `j` of the
vector binds at positional index `j+1`; a named parameter without one of
the prefixes is resolved to the first non-zero index among the probes
`:name`, `@name`, `$name`, `?name` in that order, and a resolved index of
zero fails the statement with the bind-name-not-found error; values
dispatch by kind to the native bind calls (bool as integer 0/1, the narrow
integer kinds through `int32`, the wide ones through `int64`, floats as
double, strings as text, byte slices as blob with the empty blob binding
null, nil as null), and an unsupported kind fails with the
bind-unsupported-type error instead of reaching the engine. -/
theorem c6_parameter_binding_spec (lookup : GoStr → Nat) :
    (∀ name : GoStr, name ≠ [] →
      (∀ p ∈ Sqlitec.paramPrefixes, goHasPrefixStr name p = false) →
      Sqlitec.bindParameterIndexSafe lookup name =
        firstNonzeroNat (Sqlitec.paramPrefixes.map (fun p => lookup (p ++ name)))) ∧
    (∀ ps : List Sqlitec.QueryParam, (∀ p ∈ ps, p.name = []) →
      ∀ l, Sqlitec.bindParams lookup ps 0 = .ok l →
        ∀ (j : Nat) (hj : j < l.length), (l.get ⟨j, hj⟩).1 = j + 1) ∧
    (∀ (p : Sqlitec.QueryParam) (rest : List Sqlitec.QueryParam) (i : Nat),
      p.name ≠ [] → Sqlitec.bindParameterIndexSafe lookup p.name = 0 →
      Sqlitec.bindParams lookup (p :: rest) i =
        .error (gs "failed to find named parameter index: " ++ p.name)) ∧
    (Sqlitec.bindDynamic (.goBool true) = .ok (.bindInt 1) ∧
      Sqlitec.bindDynamic (.goBool false) = .ok (.bindInt 0)) ∧
    (∀ v : Int,
      Sqlitec.bindDynamic (.goInt16 v) = .ok (.bindInt (toInt32 v)) ∧
      Sqlitec.bindDynamic (.goInt32 v) = .ok (.bindInt v) ∧
      Sqlitec.bindDynamic (.goUint32 v) = .ok (.bindInt (toInt32 v)) ∧
      Sqlitec.bindDynamic (.goInt64 v) = .ok (.bindInt64 v) ∧
      Sqlitec.bindDynamic (.goUint64 v) = .ok (.bindInt64 (toInt64 v))) ∧
    (∀ v : ℚ, Sqlitec.bindDynamic (.goFloat32 v) = .ok (.bindDouble v) ∧
      Sqlitec.bindDynamic (.goFloat64 v) = .ok (.bindDouble v)) ∧
    (∀ s : GoStr, Sqlitec.bindDynamic (.goString s) = .ok (.bindText s)) ∧
    (Sqlitec.bindDynamic (.goBytes []) = .ok .bindNull) ∧
    (∀ bs : List Nat, bs ≠ [] →
      Sqlitec.bindDynamic (.goBytes bs) = .ok (.bindBlob bs)) ∧
    (Sqlitec.bindDynamic .goNil = .ok .bindNull) ∧
    (∀ t : GoStr, Sqlitec.bindDynamic (.goOther t) =
      .error (gs "unsupported bind " ++ t ++ gs " type")) := by
  refine ⟨?_, ?_, ?_, ⟨rfl, rfl⟩, ?_, ?_, fun _ => rfl, rfl, ?_, rfl, fun _ => rfl⟩
  · intro name hne hnp
    have hAny : Sqlitec.paramPrefixes.any (fun p => goHasPrefixStr name p) = false := by
      simp only [List.any_eq_false]
      intro p hp
      simp [hnp p hp]
    simp [Sqlitec.bindParameterIndexSafe, hne, hAny,
      probeLoop_eq_firstNonzero]
  · intro ps hAll l h j hj
    simpa using bindParams_positional lookup ps 0 l hAll h j hj
  · intro p rest i hne hzero
    simp [Sqlitec.bindParams, hne, hzero]
  · intro v
    exact ⟨rfl, rfl, rfl, rfl, rfl⟩
  · intro v
    exact ⟨rfl, rfl⟩
  · intro bs hbs
    simp [Sqlitec.bindDynamic, Sqlitec.bindBlobFn, hbs]

/-- A parameter-index oracle for the C6 witness: the prepared statement
knows only the parameter `:k` at index 2. -/
def c6Lookup : GoStr → Nat := fun s => if s = gs ":k" then 2 else 0

/-- Witness for C6 at concrete inputs: the unprefixed name `k` resolves to
index 2 through the probe, positional binding places the second nameless
parameter at index 2, an unresolvable name fails the statement, and the
empty blob binds null. -/
theorem c6_parameter_binding_spec_witness :
    Sqlitec.bindParameterIndexSafe c6Lookup (gs "k") = 2 ∧
    (([(1, Sqlitec.BindOp.bindInt 1), (2, Sqlitec.BindOp.bindNull)].get
        ⟨1, by decide⟩).1 = 1 + 1) ∧
    Sqlitec.bindParams c6Lookup [⟨gs "missing", .goNil⟩] 5 =
      .error (gs "failed to find named parameter index: " ++ gs "missing") ∧
    Sqlitec.bindDynamic (.goBytes []) = .ok .bindNull := by
  refine ⟨?_, ?_, ?_, ?_⟩
  · exact ((c6_parameter_binding_spec c6Lookup).1 (gs "k") (by decide)
      (by decide)).trans (by decide)
  · exact (c6_parameter_binding_spec c6Lookup).2.1
      [⟨[], .goBool true⟩, ⟨[], .goNil⟩] (by decide)
      [(1, Sqlitec.BindOp.bindInt 1), (2, Sqlitec.BindOp.bindNull)] rfl 1 (by decide)
  · exact (c6_parameter_binding_spec c6Lookup).2.2.1 ⟨gs "missing", .goNil⟩ [] 5
      (by decide) (by decide)
  · exact (c6_parameter_binding_spec c6Lookup).2.2.2.2.2.2.2.1

/-- Incrementing the errors counter touches exactly the errors field of the
bucket for the given minute. -/
theorem bucketOf_incErrors (m : List (GoStr × Stats.MinuteBucket)) (key : GoStr) :
    Stats.bucketOf (Stats.incErrors m key) key =
      { Stats.bucketOf m key with
        errors := (Stats.bucketOf m key).errors + 1 } := by
  induction m with
  | nil => simp [Stats.incErrors, Stats.bucketOf]
  | cons kb rest ih =>
    obtain ⟨k, b⟩ := kb
    by_cases h : k = key
    · subst h
      simp [Stats.incErrors, Stats.bucketOf]
    · simp [Stats.incErrors, Stats.bucketOf, h, ih]

/-- C7: the `Query` wrapper increments the errors counter of the current
minute's bucket — which carries the errors counter alongside the reads,
writes, begins, commits, rollbacks and http-requests counters — exactly
when the underlying engine call returns an error, leaving every other
counter of the bucket untouched and passing the outcome through; a
successful call leaves the stats map unchanged. -/
theorem c7_errors_counter_per_minute (e : GoStr)
    (m : List (GoStr × Stats.MinuteBucket)) (key : GoStr)
    (r : DbRaw.QueryResult) :
    (Stats.queryWrapper (.error e) m key).1 = .error e ∧
    (Stats.bucketOf ((Stats.queryWrapper (.error e) m key).2) key).errors =
      (Stats.bucketOf m key).errors + 1 ∧
    (Stats.bucketOf ((Stats.queryWrapper (.error e) m key).2) key).reads =
      (Stats.bucketOf m key).reads ∧
    (Stats.bucketOf ((Stats.queryWrapper (.error e) m key).2) key).writes =
      (Stats.bucketOf m key).writes ∧
    (Stats.bucketOf ((Stats.queryWrapper (.error e) m key).2) key).begins =
      (Stats.bucketOf m key).begins ∧
    (Stats.bucketOf ((Stats.queryWrapper (.error e) m key).2) key).commits =
      (Stats.bucketOf m key).commits ∧
    (Stats.bucketOf ((Stats.queryWrapper (.error e) m key).2) key).rollbacks =
      (Stats.bucketOf m key).rollbacks ∧
    (Stats.bucketOf ((Stats.queryWrapper (.error e) m key).2) key).httpRequests =
      (Stats.bucketOf m key).httpRequests ∧
    Stats.queryWrapper (.ok r) m key = (.ok r, m) := by
  have hB := bucketOf_incErrors m key
  exact ⟨rfl, by simp [Stats.queryWrapper, hB], by simp [Stats.queryWrapper, hB],
    by simp [Stats.queryWrapper, hB], by simp [Stats.queryWrapper, hB],
    by simp [Stats.queryWrapper, hB], by simp [Stats.queryWrapper, hB],
    by simp [Stats.queryWrapper, hB], rfl⟩

/-- C8: request parsing — raw text outside JSON becomes one bare statement;
a JSON string becomes one bare statement; a JSON object with
`query`/`params`/`txId` becomes one statement carrying them; a batch object
gives the statements in order, a per-item `txId` overriding the top-level
one and a missing per-item `txId` inheriting it; a JSON array yields
strings and statement objects in order; and empty statement text at any
level fails the parse with an error. -/
theorem c8_request_shapes_spec (body : GoStr) (dec : Except GoStr Server.JValue)
    (s T t1 q1 q2 : GoStr) (ps : List Server.JValue) :
    (Server.queryParseRequest false body dec =
      (if goTrimSpace body = [] then .error (gs "empty query")
       else .ok [{ query := goTrimSpace body }])) ∧
    (Server.queryParseRequest true body (.ok (.jstr s)) =
      (if goTrimSpace s = [] then .error (gs "empty query")
       else .ok [{ query := goTrimSpace s }])) ∧
    (Server.queryParseRequest true body
        (.ok (.jobj [(gs "query", .jstr q1), (gs "params", .jarr ps),
                     (gs "txId", .jstr T)])) =
      (if goTrimSpace q1 = [] then .error (gs "no valid query found")
       else .ok [{ txId := T, query := goTrimSpace q1, params := ps }])) ∧
    (goTrimSpace q1 ≠ [] → goTrimSpace q2 ≠ [] →
      Server.queryParseRequest true body
          (.ok (.jobj [(gs "txId", .jstr T),
                       (gs "queries", .jarr
                         [.jobj [(gs "query", .jstr q1), (gs "txId", .jstr t1)],
                          .jobj [(gs "query", .jstr q2)]])])) =
        .ok [{ txId := t1, query := goTrimSpace q1 },
             { txId := T, query := goTrimSpace q2 }]) ∧
    (Server.queryParseRequest true body
        (.ok (.jobj [(gs "txId", .jstr T),
                     (gs "queries", .jarr [.jobj [(gs "query", .jstr (gs "  "))]])])) =
      .error (gs "empty query")) ∧
    (goTrimSpace s ≠ [] → goTrimSpace q2 ≠ [] →
      Server.queryParseRequest true body
          (.ok (.jarr [.jstr s,
                       .jobj [(gs "query", .jstr q2), (gs "params", .jarr ps),
                              (gs "txId", .jstr t1)]])) =
        .ok [{ query := goTrimSpace s },
             { txId := t1, query := goTrimSpace q2, params := ps }]) := by
  refine ⟨rfl, rfl, ?_, ?_, ?_, ?_⟩
  · simp +decide [Server.queryParseRequest, Server.mapGet, Server.asString,
      Server.asParams]
  · intro h1 h2
    simp +decide [Server.queryParseRequest, Server.parseBatchItems, Server.mapGet,
      Server.asString, Server.asParams, h1, h2]
  · simp +decide [Server.queryParseRequest, Server.parseBatchItems, Server.mapGet,
      Server.asString, Server.asParams]
  · intro h1 h2
    simp +decide [Server.queryParseRequest, Server.parseArrayItems, Server.mapGet,
      Server.asString, Server.asParams, h1, h2]

/-- Witness for C8: a concrete batch body in which the first statement
overrides the top-level transaction id and the second inherits it. -/
theorem c8_request_shapes_spec_witness :
    Server.queryParseRequest true (gs "body")
        (.ok (.jobj [(gs "txId", .jstr (gs "T0")),
                     (gs "queries", .jarr
                       [.jobj [(gs "query", .jstr (gs "SELECT 1")),
                               (gs "txId", .jstr (gs "T1"))],
                        .jobj [(gs "query", .jstr (gs "SELECT 2"))]])])) =
      .ok [{ txId := gs "T1", query := gs "SELECT 1" },
           { txId := gs "T0", query := gs "SELECT 2" }] := by
  have h := (c8_request_shapes_spec (gs "body") (.error [])
      (gs "s") (gs "T0") (gs "T1") (gs "SELECT 1") (gs "SELECT 2") []).2.2.2.1
      (by decide) (by decide)
  simpa using h

/-- Any successful outcome of the read-result assembly is a read result
with an initialized (`some`) values pointer. -/
theorem assembleReadResult_ok_shape (txId : GoStr)
    (res : Except GoStr DbTx.RowsData) (r : DbTx.QueryResult)
    (h : DbTx.assembleReadResult txId res = .ok r) :
    r.type = .qRead ∧ r.readResult.values.isSome := by
  unfold DbTx.assembleReadResult at h
  split at h
  · exact absurd h (by simp)
  · split at h
    · exact absurd h (by simp)
    · split at h
      · exact absurd h (by simp)
      · split at h
        · exact absurd h (by simp)
        · cases h
          exact ⟨rfl, rfl⟩

/-- A successful read of the transaction-map revision always carries its
scanned rows behind an initialized values pointer. -/
theorem dbTx_executeReadQuery_ok_shape (eng : DbTx.TxEngine) (txs : List GoStr)
    (q : DbTx.QueryReq) (r : DbTx.QueryResult)
    (h : DbTx.executeReadQuery eng txs q = .ok r) :
    r.type = .qRead ∧ r.readResult.values.isSome := by
  unfold DbTx.executeReadQuery at h
  split at h
  · exact absurd h (by simp)
  · exact assembleReadResult_ok_shape _ _ _ h

/-- C10: every read the engine dispatcher completes successfully carries an
initialized (non-nil) values pointer, so the query endpoint's downgrade
branch emitting the error outcome `No rows returned` is unreachable for
successful reads, and a read matching zero rows produces a read outcome
with an empty values list. -/
theorem c10_successful_read_values_initialized (eng : DbTx.TxEngine)
    (txs : List GoStr) (q : DbTx.QueryReq) (r : DbTx.QueryResult)
    (h : (DbTx.dbQuery eng txs q).1 = .ok r) (hr : r.type = .qRead) :
    r.readResult.values.isSome ∧
    Server.queryHandlerResult r ≠ .errorOut (gs "No rows returned") ∧
    (r.readResult.values = some [] →
      Server.queryHandlerResult r =
        .readOut r.readResult.columns r.readResult.types []) := by
  have hSome : r.readResult.values.isSome := by
    unfold DbTx.dbQuery at h
    split at h
    · exact absurd h (by simp)
    · split at h
      · exact absurd h (by simp)
      · split at h
        · -- begin
          unfold DbTx.executeBeginQuery at h
          split at h
          · exact absurd h (by simp)
          · simp at h
            rw [← h] at hr
            exact absurd hr (by simp)
        · -- commit
          unfold DbTx.executeCommitQuery at h
          split at h
          · exact absurd h (by simp)
          · split at h
            · exact absurd h (by simp)
            · simp at h
              rw [← h] at hr
              exact absurd hr (by simp)
        · -- rollback
          unfold DbTx.executeRollbackQuery at h
          split at h
          · exact absurd h (by simp)
          · split at h
            · exact absurd h (by simp)
            · simp at h
              rw [← h] at hr
              exact absurd hr (by simp)
        · -- read
          exact (dbTx_executeReadQuery_ok_shape eng txs q r h).2
        · -- write
          replace h : DbTx.executeWriteQuery eng txs q = Except.ok r := h
          unfold DbTx.executeWriteQuery at h
          split at h
          · exact absurd h (by simp)
          · split at h
            · exact absurd h (by simp)
            · simp at h
              rw [← h] at hr
              exact absurd hr (by simp)
        · -- unknown
          exact absurd h (by simp)
  obtain ⟨vs, hvs⟩ := Option.isSome_iff_exists.mp hSome
  refine ⟨hSome, ?_, ?_⟩
  · simp [Server.queryHandlerResult, hr, hvs]
  · intro hEmpty
    simp [Server.queryHandlerResult, hr, hEmpty]

/-- An engine whose read of the empty table succeeds with zero rows. -/
def c10Engine : DbTx.TxEngine where
  detect := fun _ => (.qRead, none)
  txQuery := fun _ _ => .error (gs "not used")
  connQuery := fun _ _ =>
    .ok { columns := .ok [gs "id"], scanned := .ok [], firstRowTypes := .ok [] }
  txExec := fun _ _ => .error (gs "not used")
  connExec := fun _ _ => .error (gs "not used")
  beginOutcome := .ok ()
  commitOutcome := .ok ()
  rollbackOutcome := .ok ()
  freshUuid := gs "u"

/-- Witness for C10: a read matching zero rows succeeds with `values` equal
to `some []` and is rendered as a read outcome with an empty values list,
not as the `No rows returned` error. -/
theorem c10_successful_read_values_initialized_witness :
    (({ type := .qRead, txId := [],
        readResult := { columns := [gs "id"], types := [],
                        values := some [] } } : DbTx.QueryResult)).readResult.values.isSome ∧
    Server.queryHandlerResult
        { type := .qRead, txId := [],
          readResult := { columns := [gs "id"], types := [], values := some [] } } ≠
      .errorOut (gs "No rows returned") ∧
    (({ type := .qRead, txId := [],
        readResult := { columns := [gs "id"], types := [],
                        values := some [] } } : DbTx.QueryResult).readResult.values =
        some [] →
      Server.queryHandlerResult
          { type := .qRead, txId := [],
            readResult := { columns := [gs "id"], types := [], values := some [] } } =
        .readOut [gs "id"] [] []) :=
  c10_successful_read_values_initialized c10Engine []
    { txId := [], query := gs "SELECT id FROM t", params := [] }
    { type := .qRead, txId := [],
      readResult := { columns := [gs "id"], types := [], values := some [] } }
    rfl rfl

/-- Witness for the amended C9 at concrete inputs: the exact header
`Bearer tok` passes against the plaintext token `tok`, and a wrong token is
answered with HTTP 401. -/
theorem c9_amended_auth_characterization_witness :
    Server.queryHandlerAuthMiddleware (fun _ _ => false) (fun _ _ => false)
        (gs "tok") (gs "plaintext") (gs "Bearer tok") = .next ∧
    Server.queryHandlerAuthMiddleware (fun _ _ => false) (fun _ _ => false)
        (gs "tok") (gs "plaintext") (gs "wrong") = .unauthorized401 := by
  constructor
  · exact (c9_amended_auth_characterization (fun _ _ => false) (fun _ _ => false)
      (gs "tok") (gs "plaintext") (gs "Bearer tok")).1.mpr
      (Or.inr ⟨by decide, Or.inl ⟨rfl, by decide⟩⟩)
  · exact (c9_amended_auth_characterization (fun _ _ => false) (fun _ _ => false)
      (gs "tok") (gs "plaintext") (gs "wrong")).2 (by decide)
